import Mathlib

/-!
Shallow embedding of `mediapipe/calculators/video/opencv_video_decoder_calculator.cc`
(`OpenCvVideoDecoderCalculator`): a streaming video-file decoder with the
lifecycle Open / Process / Close.

The calculator's own logic (format mapping, metadata validation, header
construction, the monotonicity gate, the frame-count diagnostic) is translated
line by line from the source.  The external `cv::VideoCapture` collaborator is
modelled at the boundary as a finite list of raw frames with a cursor:
`read` yields the frame at the cursor and advances it, `get(POS_MSEC)` reports
the presentation position (in milliseconds) of the frame the cursor points at,
and rewinding the capture resets the cursor to zero.  Container metadata
(width, height, fps, frame count) is carried separately from the frame list,
since the source treats it as unreliable.  The frame rate is modelled as a
rational number, pixel data as lists of channel-value lists.
-/

namespace CvDecoder

/-- `ImageFormat::Format` restricted to the constants this calculator uses. -/
inductive ImageFormat where
  | UNKNOWN
  | GRAY8
  | SRGB
  | SRGBA
  deriving DecidableEq, Repr

/-- Translation of the anonymous-namespace helper `GetImageFormat`:
`cv::VideoCapture` data is unsigned char, so the format depends only on the
channel count (`switch (num_channels)` with cases 1, 3, 4 and a default). -/
def GetImageFormat (num_channels : Int) : ImageFormat :=
  if num_channels = 1 then ImageFormat.GRAY8
  else if num_channels = 3 then ImageFormat.SRGB
  else if num_channels = 4 then ImageFormat.SRGBA
  else ImageFormat.UNKNOWN

/-- A mediapipe `Timestamp` as used on the output streams: either the
distinguished pre-stream timestamp (`Timestamp::PreStream()`) or a
microsecond value. -/
inductive MTimestamp where
  | preStream
  | micros (us : Int)
  deriving DecidableEq, Repr

/-- The distinct failure sites of `Open` (each is an
`InvalidArgumentErrorBuilder` in the source, distinguished by message):
cannot open the file, cannot read any frame, unsupported channel count,
bad container metadata. -/
inductive DecodeError where
  | openError
  | readError
  | unsupportedFormat
  | invalidMetadata
  deriving DecidableEq, Repr

/-- Status of one `Process` call: the source returns either `OkStatus()` or
`tool::StatusStop()`; no error return exists in `Process`. -/
inductive ProcStatus where
  | ok
  | stop
  deriving DecidableEq, Repr

/-- Status of `Close`: the source's `Close` always returns `OkStatus()`. -/
inductive CloseStatus where
  | ok
  | error (e : DecodeError)
  deriving DecidableEq, Repr

/-- One raw frame as delivered by the capture: its channel count, its pixel
data (one channel-value list per pixel, in the decoder's native channel
order), and its presentation position in milliseconds. -/
structure RawFrame where
  channels : Int
  pixels : List (List Nat)
  posMsec : Int
  deriving DecidableEq, Repr

/-- Boundary model of the video source behind `cv::VideoCapture`:
whether the path opens at all, the container-reported metadata (best effort,
possibly wrong), and the actual decodable frames in order. -/
structure Video where
  openable : Bool
  metaWidth : Int
  metaHeight : Int
  metaFps : ℚ
  metaFrameCount : Int
  frames : List RawFrame
  deriving DecidableEq, Repr

/-- Boundary model of `cap_->get(cv::CAP_PROP_POS_MSEC)` at a given cursor:
the presentation position (ms) of the next frame to be decoded; an arbitrary
value (0) once the source is exhausted. -/
def Video.posMsec (v : Video) (cursor : Nat) : Int :=
  match (v.frames.drop cursor).head? with
  | some f => f.posMsec
  | none => 0

/-- Boundary model of `cap_->read(frame)` at a given cursor: the decoded
frame (none at end of stream, i.e. `frame.empty()`) and the new cursor. -/
def Video.readFrame (v : Video) (cursor : Nat) : Option RawFrame × Nat :=
  match (v.frames.drop cursor).head? with
  | some f => (some f, cursor + 1)
  | none => (none, cursor)

/-- Boundary model of rewinding the capture to the very first frame
(the source sets the position-ratio property to 0). -/
def rewind (_cursor : Nat) : Nat := 0

/-- Boundary model of `cv::cvtColor(..., cv::COLOR_BGR2RGB)` on one pixel:
swap the first and third channels. -/
def bgr2rgbPixel : List Nat → List Nat
  | [b, g, r] => [r, g, b]
  | px => px

/-- Boundary model of `cv::cvtColor(..., cv::COLOR_BGRA2RGBA)` on one pixel:
swap the first and third channels, keep alpha in place. -/
def bgra2rgbaPixel : List Nat → List Nat
  | [b, g, r, a] => [r, g, b, a]
  | px => px

/-- The pixel data placed into the output `ImageFrame` by `Process`, per
format branch of the source: `GRAY8` is read directly into the output buffer,
`SRGB` goes through `COLOR_BGR2RGB`, `SRGBA` through `COLOR_BGRA2RGBA`; for
any other format the source writes nothing into the allocated buffer
(modelled as an empty pixel list; unreachable after a successful `Open`). -/
def convertPixels (format : ImageFormat) (pixels : List (List Nat)) :
    List (List Nat) :=
  match format with
  | ImageFormat.GRAY8 => pixels
  | ImageFormat.SRGB => pixels.map bgr2rgbPixel
  | ImageFormat.SRGBA => pixels.map bgra2rgbaPixel
  | ImageFormat.UNKNOWN => []

/-- The `VideoHeader` built in `Open`. -/
structure VideoHeader where
  format : ImageFormat
  width : Int
  height : Int
  frameRate : ℚ
  duration : ℚ
  deriving DecidableEq, Repr

/-- An output `ImageFrame` (its format, dimensions and pixel buffer). -/
structure DecodedFrame where
  format : ImageFormat
  width : Int
  height : Int
  pixels : List (List Nat)
  deriving DecidableEq, Repr

/-- The calculator's member state.  `decodedFrames` (`decoded_frames_`) and
`prevTimestamp` (`prev_timestamp_`, `none` standing for `Timestamp::Unset()`)
have in-class initializers in the source; `width_`, `height_`,
`frame_count_`, `format_` and `fps` do not and hold indeterminate values
until `Open` assigns them. -/
structure CalcState where
  capOpen : Bool
  cursor : Nat
  width : Int
  height : Int
  frameCount : Int
  fps : ℚ
  format : ImageFormat
  decodedFrames : Int
  prevTimestamp : Option Int
  deriving DecidableEq, Repr

/-- The state of a freshly constructed calculator.  The parameters are the
indeterminate initial values of the members that the source leaves
uninitialized (`width_`, `height_`, `frame_count_`, `format_`); only
`decoded_frames_ = 0` and `prev_timestamp_ = Timestamp::Unset()` are fixed
by the class. -/
def initState (w h fc : Int) (q : ℚ) (fmt : ImageFormat) : CalcState :=
  { capOpen := false
    cursor := 0
    width := w
    height := h
    frameCount := fc
    fps := q
    format := fmt
    decodedFrames := 0
    prevTimestamp := none }

/-- The header `Open` constructs from the probed metadata and the probe
frame's channel count: `header->duration = frame_count_ / fps`. -/
def makeHeader (v : Video) (probe : RawFrame) : VideoHeader :=
  { format := GetImageFormat probe.channels
    width := v.metaWidth
    height := v.metaHeight
    frameRate := v.metaFps
    duration := (v.metaFrameCount : ℚ) / v.metaFps }

/-- Result of a successful `Open`: the updated member state, the packets
added to the `VIDEO_PRESTREAM` output during `Open`, and whether that output
was closed. -/
structure OpenOut where
  state : CalcState
  prestream : List (VideoHeader × MTimestamp)
  prestreamClosed : Bool
  deriving DecidableEq, Repr

/-- Translation of `OpenCvVideoDecoderCalculator::Open`, in source order:
open the capture (fresh capture, cursor 0); fail if it does not open; read
the container metadata; read one probe frame, failing if none; derive the
format from its channel count, failing on `UNKNOWN`; validate the metadata;
build the header; if the `VIDEO_PRESTREAM` output is present, add the header
at `Timestamp::PreStream()` and close that output; rewind to the first
frame. -/
def calcOpen (v : Video) (hasPrestream : Bool) (st : CalcState) :
    Except DecodeError OpenOut :=
  if v.openable then
    match v.readFrame 0 with
    | (none, _) => Except.error DecodeError.readError
    | (some probe, cursorAfterProbe) =>
      if GetImageFormat probe.channels = ImageFormat.UNKNOWN then
        Except.error DecodeError.unsupportedFormat
      else if v.metaFps ≤ 0 ∨ v.metaFrameCount ≤ 0 ∨ v.metaWidth ≤ 0
          ∨ v.metaHeight ≤ 0 then
        Except.error DecodeError.invalidMetadata
      else
        Except.ok
          { state :=
              { st with
                capOpen := true
                cursor := rewind cursorAfterProbe
                width := v.metaWidth
                height := v.metaHeight
                frameCount := v.metaFrameCount
                fps := v.metaFps
                format := GetImageFormat probe.channels }
            prestream :=
              if hasPrestream then [(makeHeader v probe, MTimestamp.preStream)]
              else []
            prestreamClosed := hasPrestream }
  else Except.error DecodeError.openError

/-- The comparison `prev_timestamp_ < timestamp` on mediapipe timestamps,
with `none` standing for `Timestamp::Unset()`, which is below every
microsecond timestamp. -/
def prevLt : Option Int → Int → Bool
  | none, _ => true
  | some p, t => decide (p < t)

/-- Result of one `Process` call: the updated member state, the packets
added to the `VIDEO` output during this call (with their microsecond
timestamps), and the returned status. -/
structure ProcessOut where
  state : CalcState
  video : List (DecodedFrame × Int)
  status : ProcStatus
  deriving DecidableEq, Repr

/-- Translation of `OpenCvVideoDecoderCalculator::Process`, in source order:
take the timestamp from `get(CAP_PROP_POS_MSEC) * 1000` (before reading!),
read the next frame, returning `StatusStop` if it is empty; fill the output
buffer per the format branch; then the monotonicity gate: only if
`prev_timestamp_ < timestamp` add the frame to `VIDEO`, update
`prev_timestamp_` and increment `decoded_frames_`. -/
def calcProcess (v : Video) (st : CalcState) : ProcessOut :=
  let timestamp := v.posMsec st.cursor * 1000
  match v.readFrame st.cursor with
  | (none, _) => { state := st, video := [], status := ProcStatus.stop }
  | (some raw, cursorAfterRead) =>
    let frame : DecodedFrame :=
      { format := st.format
        width := st.width
        height := st.height
        pixels := convertPixels st.format raw.pixels }
    let stRead := { st with cursor := cursorAfterRead }
    if prevLt stRead.prevTimestamp timestamp then
      { state :=
          { stRead with
            prevTimestamp := some timestamp
            decodedFrames := stRead.decodedFrames + 1 }
        video := [(frame, timestamp)]
        status := ProcStatus.ok }
    else { state := stRead, video := [], status := ProcStatus.ok }

/-- Iterate `Process` `n` times from a given state, collecting everything
added to the `VIDEO` output (the scheduler's repeated invocation). -/
def runSteps (v : Video) : Nat → CalcState → CalcState × List (DecodedFrame × Int)
  | 0, st => (st, [])
  | n + 1, st =>
    let out := calcProcess v st
    let next := runSteps v n out.state
    (next.1, out.video ++ next.2)

/-- Result of `Close`: whether the `LOG(WARNING)` frame-count diagnostic
fired, the returned status (always `OkStatus()` in the source), and the
state after releasing the capture. -/
structure CloseOut where
  warned : Bool
  status : CloseStatus
  state : CalcState
  deriving DecidableEq, Repr

/-- Translation of `OpenCvVideoDecoderCalculator::Close`: release the
capture if it is open; warn iff `decoded_frames_ != frame_count_`; return
`OkStatus()` unconditionally. -/
def calcClose (st : CalcState) : CloseOut :=
  { warned := decide (st.decodedFrames ≠ st.frameCount)
    status := CloseStatus.ok
    state := { st with capOpen := false } }

/-- One observable output event of a run: a header packet on
`VIDEO_PRESTREAM` or a frame packet on `VIDEO`. -/
inductive Event where
  | header (h : VideoHeader) (t : MTimestamp)
  | frame (f : DecodedFrame) (t : Int)
  deriving DecidableEq, Repr

/-- Whether an event is a frame packet. -/
def Event.isFrame : Event → Bool
  | Event.frame _ _ => true
  | _ => false

/-- A whole run in emission order: `Open` from a fresh state, then `n`
`Process` steps; the chronological list of everything emitted, or the error
on which `Open` failed (in which case nothing at all is emitted). -/
def runTrace (v : Video) (hasPrestream : Bool) (n : Nat) (st : CalcState) :
    Except DecodeError (List Event) :=
  match calcOpen v hasPrestream st with
  | Except.error e => Except.error e
  | Except.ok o =>
    Except.ok
      (o.prestream.map (fun p => Event.header p.1 p.2)
        ++ (runSteps v n o.state).2.map (fun p => Event.frame p.1 p.2))

/-! ## Helper lemmas -/

/-- Shape of one `Process` call when the read succeeds. -/
theorem calcProcess_read (v : Video) (st : CalcState) (raw : RawFrame)
    (c' : Nat) (h : v.readFrame st.cursor = (some raw, c')) :
    calcProcess v st =
      (if prevLt st.prevTimestamp (v.posMsec st.cursor * 1000) then
        { state :=
            { st with
              cursor := c'
              prevTimestamp := some (v.posMsec st.cursor * 1000)
              decodedFrames := st.decodedFrames + 1 }
          video :=
            [({ format := st.format, width := st.width, height := st.height,
                pixels := convertPixels st.format raw.pixels },
              v.posMsec st.cursor * 1000)]
          status := ProcStatus.ok }
      else
        { state := { st with cursor := c' }, video := [],
          status := ProcStatus.ok }) := by
  simp only [calcProcess, h]

/-- Shape of one `Process` call when the read yields no frame. -/
theorem calcProcess_empty (v : Video) (st : CalcState) (c' : Nat)
    (h : v.readFrame st.cursor = (none, c')) :
    calcProcess v st = { state := st, video := [], status := ProcStatus.stop } := by
  simp only [calcProcess, h]

/-- `prevLt` is transitive across a strictly larger timestamp. -/
theorem prevLt_trans (p : Option Int) (t t' : Int)
    (h1 : prevLt p t = true) (h2 : t < t') : prevLt p t' = true := by
  cases p with
  | none => rfl
  | some q =>
    simp only [prevLt, decide_eq_true_eq] at h1 ⊢
    omega

/-- Every timestamp in the `VIDEO` output of a run of `Process` steps is
above the starting `prev_timestamp_`, and the timestamps are strictly
increasing. -/
theorem runSteps_mono (v : Video) :
    ∀ (n : Nat) (st : CalcState),
      List.Chain' (fun a b : Int => a < b) ((runSteps v n st).2.map Prod.snd)
        ∧ ∀ t ∈ (runSteps v n st).2.map Prod.snd,
            prevLt st.prevTimestamp t = true := by
  intro n
  induction n with
  | zero => intro st; simp [runSteps]
  | succ n ih =>
    intro st
    rcases hr : v.readFrame st.cursor with ⟨fr, c'⟩
    cases fr with
    | none =>
      have hstep := calcProcess_empty v st c' hr
      simpa [runSteps, hstep] using ih st
    | some raw =>
      have hstep := calcProcess_read v st raw c' hr
      by_cases hg : prevLt st.prevTimestamp (v.posMsec st.cursor * 1000) = true
      · rw [if_pos hg] at hstep
        have ihE := ih { st with
          cursor := c'
          prevTimestamp := some (v.posMsec st.cursor * 1000)
          decodedFrames := st.decodedFrames + 1 }
        constructor
        · simp only [runSteps, hstep, List.map_append, List.map_cons,
            List.map_nil, List.singleton_append]
          rw [List.chain'_cons']
          refine ⟨?_, ihE.1⟩
          intro y hy
          have hmem := List.mem_of_mem_head? hy
          have := ihE.2 y hmem
          simpa [prevLt, decide_eq_true_eq] using this
        · intro t ht
          simp only [runSteps, hstep, List.map_append, List.map_cons,
            List.map_nil, List.singleton_append, List.mem_cons] at ht
          rcases ht with rfl | ht
          · exact hg
          · have := ihE.2 t ht
            simp only [prevLt, decide_eq_true_eq] at this
            exact prevLt_trans _ _ _ hg this
      · rw [if_neg hg] at hstep
        have ihD := ih { st with cursor := c' }
        constructor
        · simpa [runSteps, hstep] using ihD.1
        · intro t ht
          simp only [runSteps, hstep, List.nil_append] at ht
          exact ihD.2 t ht

/-- Inversion of a successful `Open`: the file opened, a probe frame exists,
its format is supported, the metadata validated, and the result is exactly
the state/prestream output `Open` builds. -/
theorem calcOpen_ok_inv (v : Video) (hp : Bool) (st : CalcState) (o : OpenOut)
    (h : calcOpen v hp st = Except.ok o) :
    ∃ probe rest,
      v.openable = true ∧ v.frames = probe :: rest
        ∧ GetImageFormat probe.channels ≠ ImageFormat.UNKNOWN
        ∧ ¬(v.metaFps ≤ 0 ∨ v.metaFrameCount ≤ 0 ∨ v.metaWidth ≤ 0
            ∨ v.metaHeight ≤ 0)
        ∧ o =
          { state :=
              { st with
                capOpen := true
                cursor := 0
                width := v.metaWidth
                height := v.metaHeight
                frameCount := v.metaFrameCount
                fps := v.metaFps
                format := GetImageFormat probe.channels }
            prestream :=
              if hp then [(makeHeader v probe, MTimestamp.preStream)] else []
            prestreamClosed := hp } := by
  rcases hop : v.openable with _ | _
  · simp [calcOpen, hop] at h
  · rcases hf : v.frames with _ | ⟨probe, rest⟩
    · simp [calcOpen, hop, Video.readFrame, hf] at h
    · refine ⟨probe, rest, rfl, rfl, ?_⟩
      simp only [calcOpen, hop, if_true, Video.readFrame, hf, List.drop_zero,
        List.head?_cons] at h
      by_cases hfmt : GetImageFormat probe.channels = ImageFormat.UNKNOWN
      · rw [if_pos hfmt] at h; exact absurd h (by simp)
      · rw [if_neg hfmt] at h
        by_cases hmeta : v.metaFps ≤ 0 ∨ v.metaFrameCount ≤ 0
            ∨ v.metaWidth ≤ 0 ∨ v.metaHeight ≤ 0
        · rw [if_pos hmeta] at h; exact absurd h (by simp)
        · rw [if_neg hmeta] at h
          refine ⟨hfmt, hmeta, ?_⟩
          have := h
          injection this with h'
          exact h'.symm

/-! ## Sample inputs used by witnesses and counterexamples -/

/-- First frame of the sample 3-channel source. -/
def wFrame0 : RawFrame :=
  { channels := 3, pixels := [[1, 2, 3], [4, 5, 6]], posMsec := 0 }

/-- Second frame of the sample 3-channel source. -/
def wFrame1 : RawFrame :=
  { channels := 3, pixels := [[7, 8, 9], [10, 11, 12]], posMsec := 40 }

/-- A small openable 3-channel (BGR) sample source. -/
def wVideo : Video :=
  { openable := true
    metaWidth := 2
    metaHeight := 1
    metaFps := 25
    metaFrameCount := 2
    frames := [wFrame0, wFrame1] }

/-- The member state `Open` produces on `wVideo`. -/
def wState : CalcState :=
  { capOpen := true
    cursor := 0
    width := 2
    height := 1
    frameCount := 2
    fps := 25
    format := ImageFormat.SRGB
    decodedFrames := 0
    prevTimestamp := none }

/-- The full result `Open` produces on `wVideo` with the pre-stream output
requested. -/
def wOpen : OpenOut :=
  { state := wState
    prestream :=
      [({ format := ImageFormat.SRGB, width := 2, height := 1,
          frameRate := 25, duration := 2 / 25 }, MTimestamp.preStream)]
    prestreamClosed := true }

/-! ## Claims -/

/-- Claim C1: after a successful `Open`, the timestamps of the frames
emitted on `VIDEO` over any number of `Process` steps are strictly
increasing; on each step that decodes a frame, the frame is emitted iff its
derived timestamp is strictly greater than the previously emitted timestamp
(`prev_timestamp_`, initially `Unset`, below everything); a frame that fails
the gate is dropped with no emission and an `OkStatus` return (no error). -/
theorem C1_monotonic_emission (v : Video) (hp : Bool) (w h fc : Int) (q : ℚ)
    (fmt : ImageFormat) (o : OpenOut) (n : Nat) (st : CalcState)
    (raw : RawFrame) (c' : Nat)
    (_ho : calcOpen v hp (initState w h fc q fmt) = Except.ok o)
    (hread : v.readFrame st.cursor = (some raw, c')) :
    List.Chain' (fun a b : Int => a < b) ((runSteps v n o.state).2.map Prod.snd)
      ∧ ((calcProcess v st).video ≠ [] ↔
          prevLt st.prevTimestamp (v.posMsec st.cursor * 1000) = true)
      ∧ (prevLt st.prevTimestamp (v.posMsec st.cursor * 1000) = false →
          (calcProcess v st).video = []
            ∧ (calcProcess v st).status = ProcStatus.ok) := by
  have hstep := calcProcess_read v st raw c' hread
  refine ⟨(runSteps_mono v n o.state).1, ?_, ?_⟩
  · by_cases hg : prevLt st.prevTimestamp (v.posMsec st.cursor * 1000) = true
    · rw [if_pos hg] at hstep
      simp [hstep, hg]
    · rw [if_neg hg] at hstep
      simp [hstep]
      simpa using hg
  · intro hg
    rw [if_neg (by simp [hg])] at hstep
    simp [hstep]

/-- Witness for C1 on the sample source: the open succeeds, the first read
succeeds, and the conclusion holds there. -/
theorem C1_monotonic_emission_witness :
    calcOpen wVideo true (initState 0 0 0 0 ImageFormat.UNKNOWN)
        = Except.ok wOpen
      ∧ wVideo.readFrame wState.cursor = (some wFrame0, 1)
      ∧ (List.Chain' (fun a b : Int => a < b)
            ((runSteps wVideo 3 wOpen.state).2.map Prod.snd)
          ∧ ((calcProcess wVideo wState).video ≠ [] ↔
              prevLt wState.prevTimestamp (wVideo.posMsec wState.cursor * 1000)
                = true)
          ∧ (prevLt wState.prevTimestamp (wVideo.posMsec wState.cursor * 1000)
                = false →
              (calcProcess wVideo wState).video = []
                ∧ (calcProcess wVideo wState).status = ProcStatus.ok)) :=
  ⟨rfl, rfl,
    C1_monotonic_emission wVideo true 0 0 0 0 ImageFormat.UNKNOWN wOpen 3
      wState wFrame0 1 rfl rfl⟩

/-- Claim C4: once the source is exhausted (the cursor is at or past the end
of the frame list), `Process` returns `StatusStop`, emits nothing, and
leaves the state unchanged, so every subsequent invocation does the same;
no error is ever produced. -/
theorem C4_exhaustion (v : Video) (st : CalcState) (k : Nat)
    (h : v.frames.length ≤ st.cursor) :
    (calcProcess v st).status = ProcStatus.stop
      ∧ (calcProcess v st).video = []
      ∧ (calcProcess v st).state = st
      ∧ (runSteps v k st).1 = st ∧ (runSteps v k st).2 = [] := by
  have hnil : v.frames.drop st.cursor = [] := List.drop_eq_nil_of_le h
  have hread : v.readFrame st.cursor = (none, st.cursor) := by
    simp [Video.readFrame, hnil]
  have hstep := calcProcess_empty v st st.cursor hread
  have hrun : ∀ m : Nat, runSteps v m st = (st, []) := by
    intro m
    induction m with
    | zero => rfl
    | succ m ih => simp [runSteps, hstep, ih]
  exact ⟨by rw [hstep], by rw [hstep], by rw [hstep],
    by rw [hrun k], by rw [hrun k]⟩

/-- Witness for C4: the sample source with the cursor past both frames. -/
theorem C4_exhaustion_witness :
    wVideo.frames.length ≤ ({ wState with cursor := 2 } : CalcState).cursor
      ∧ ((calcProcess wVideo { wState with cursor := 2 }).status
            = ProcStatus.stop
          ∧ (calcProcess wVideo { wState with cursor := 2 }).video = []
          ∧ (calcProcess wVideo { wState with cursor := 2 }).state
              = { wState with cursor := 2 }
          ∧ (runSteps wVideo 3 { wState with cursor := 2 }).1
              = { wState with cursor := 2 }
          ∧ (runSteps wVideo 3 { wState with cursor := 2 }).2 = []) :=
  ⟨by decide, C4_exhaustion wVideo { wState with cursor := 2 } 3 (by decide)⟩

/-- Claim C10: when the monotonicity gate drops a decoded frame, nothing is
added to `VIDEO`, `prev_timestamp_` and `decoded_frames_` are unchanged, and
the step still returns `OkStatus`. -/
theorem C10_drop_preserves_state (v : Video) (st : CalcState) (raw : RawFrame)
    (c' : Nat) (hread : v.readFrame st.cursor = (some raw, c'))
    (hdrop : prevLt st.prevTimestamp (v.posMsec st.cursor * 1000) = false) :
    (calcProcess v st).video = []
      ∧ (calcProcess v st).state.prevTimestamp = st.prevTimestamp
      ∧ (calcProcess v st).state.decodedFrames = st.decodedFrames
      ∧ (calcProcess v st).status = ProcStatus.ok := by
  have hstep := calcProcess_read v st raw c' hread
  rw [if_neg (by simp [hdrop])] at hstep
  simp [hstep]

/-- A state on the sample source whose previous emitted timestamp (100 µs)
already exceeds the next frame's derived timestamp (0 µs). -/
def dState : CalcState := { wState with prevTimestamp := some 100 }

/-- Witness for C10: on `dState` the gate drops the decoded frame. -/
theorem C10_drop_preserves_state_witness :
    wVideo.readFrame dState.cursor = (some wFrame0, 1)
      ∧ prevLt dState.prevTimestamp (wVideo.posMsec dState.cursor * 1000)
          = false
      ∧ ((calcProcess wVideo dState).video = []
          ∧ (calcProcess wVideo dState).state.prevTimestamp
              = dState.prevTimestamp
          ∧ (calcProcess wVideo dState).state.decodedFrames
              = dState.decodedFrames
          ∧ (calcProcess wVideo dState).status = ProcStatus.ok) :=
  ⟨rfl, by decide,
    C10_drop_preserves_state wVideo dState wFrame0 1 rfl (by decide)⟩

/-- The timestamp described by claim C6's wording: decode the next frame
FIRST, and then read the session's presentation position (so the position
read is the one after the read has advanced the capture), scaled from
milliseconds to microseconds.  Stated from the claim for comparison with
`calcProcess`, which reads the position before decoding. -/
def claimOrderTimestampUs (v : Video) (cursor : Nat) : Int :=
  v.posMsec (v.readFrame cursor).2 * 1000

/-- Counterexample to claim C6 as stated: on the sample source (frames at
0 ms and 40 ms), the first `Process` step emits a frame carrying timestamp
0 µs — the position read before decoding — whereas decoding first and then
reading the position would yield 40000 µs. -/
theorem C6_counterexample :
    calcOpen wVideo true (initState 0 0 0 0 ImageFormat.UNKNOWN)
        = Except.ok wOpen
      ∧ (calcProcess wVideo wOpen.state).video.map Prod.snd = [0]
      ∧ claimOrderTimestampUs wVideo wOpen.state.cursor = 40000
      ∧ (calcProcess wVideo wOpen.state).video.map Prod.snd
          ≠ [claimOrderTimestampUs wVideo wOpen.state.cursor] :=
  ⟨rfl, by decide, by decide, by decide⟩

/-- Claim C6 as amended: on every `Process` step, the presentation position
is read first (before the decode) and scaled from milliseconds to
microseconds by ×1000; every frame emitted on that step carries exactly that
pre-decode-position timestamp. -/
theorem C6_pre_read_timestamp (v : Video) (st : CalcState) (f : DecodedFrame)
    (ts : Int) (hmem : (f, ts) ∈ (calcProcess v st).video) :
    ts = v.posMsec st.cursor * 1000 := by
  rcases hr : v.readFrame st.cursor with ⟨fr, c'⟩
  cases fr with
  | none =>
    rw [calcProcess_empty v st c' hr] at hmem
    simp at hmem
  | some raw =>
    have hstep := calcProcess_read v st raw c' hr
    by_cases hg : prevLt st.prevTimestamp (v.posMsec st.cursor * 1000) = true
    · rw [if_pos hg] at hstep
      rw [hstep] at hmem
      simp only [List.mem_singleton, Prod.mk.injEq] at hmem
      exact hmem.2
    · rw [if_neg hg] at hstep
      rw [hstep] at hmem
      simp at hmem

/-- The frame that the first `Process` step on the sample source emits:
`wFrame0`'s BGR pixels reordered to RGB. -/
def wOut0 : DecodedFrame :=
  { format := ImageFormat.SRGB
    width := 2
    height := 1
    pixels := [[3, 2, 1], [6, 5, 4]] }

/-- Witness for the amended C6: the first step on the sample source emits a
frame, and its timestamp is the pre-decode position in microseconds. -/
theorem C6_pre_read_timestamp_witness :
    (wOut0, (0 : Int)) ∈ (calcProcess wVideo wState).video
      ∧ (0 : Int) = wVideo.posMsec wState.cursor * 1000 :=
  ⟨by decide, C6_pre_read_timestamp wVideo wState wOut0 0 (by decide)⟩

/-- Claim C8: every frame emitted on `VIDEO` holds the decoded data in the
canonical format: for `GRAY8` the decoded data is copied directly; for a
3-channel source the channels are reordered BGR→RGB; for a 4-channel source
they are reordered BGRA→RGBA with the alpha channel passed through. -/
theorem C8_color_conversion (v : Video) (st : CalcState) (raw : RawFrame)
    (c' : Nat) (f : DecodedFrame) (ts : Int)
    (hread : v.readFrame st.cursor = (some raw, c'))
    (hmem : (f, ts) ∈ (calcProcess v st).video) :
    (st.format = ImageFormat.GRAY8 → f.pixels = raw.pixels)
      ∧ (st.format = ImageFormat.SRGB →
          f.pixels = raw.pixels.map bgr2rgbPixel
            ∧ ∀ b g r : Nat, [b, g, r] ∈ raw.pixels → [r, g, b] ∈ f.pixels)
      ∧ (st.format = ImageFormat.SRGBA →
          f.pixels = raw.pixels.map bgra2rgbaPixel
            ∧ ∀ b g r a : Nat, [b, g, r, a] ∈ raw.pixels →
                [r, g, b, a] ∈ f.pixels) := by
  have hstep := calcProcess_read v st raw c' hread
  have hpix : f.pixels = convertPixels st.format raw.pixels := by
    by_cases hg : prevLt st.prevTimestamp (v.posMsec st.cursor * 1000) = true
    · rw [if_pos hg] at hstep
      rw [hstep] at hmem
      simp only [List.mem_singleton, Prod.mk.injEq] at hmem
      rw [hmem.1]
    · rw [if_neg hg] at hstep
      rw [hstep] at hmem
      simp at hmem
  refine ⟨?_, ?_, ?_⟩
  · intro hf; rw [hpix, hf]; rfl
  · intro hf
    rw [hpix, hf]
    refine ⟨rfl, ?_⟩
    intro b g r hbgr
    have : bgr2rgbPixel [b, g, r] = [r, g, b] := rfl
    exact this ▸ List.mem_map_of_mem bgr2rgbPixel hbgr
  · intro hf
    rw [hpix, hf]
    refine ⟨rfl, ?_⟩
    intro b g r a hbgra
    have : bgra2rgbaPixel [b, g, r, a] = [r, g, b, a] := rfl
    exact this ▸ List.mem_map_of_mem bgra2rgbaPixel hbgra

/-- Witness for C8: the sample 3-channel frame `[[1,2,3],[4,5,6]]` (BGR) is
emitted as `[[3,2,1],[6,5,4]]` (RGB). -/
theorem C8_color_conversion_witness :
    wVideo.readFrame wState.cursor = (some wFrame0, 1)
      ∧ (wOut0, (0 : Int)) ∈ (calcProcess wVideo wState).video
      ∧ ((wState.format = ImageFormat.GRAY8 → wOut0.pixels = wFrame0.pixels)
        ∧ (wState.format = ImageFormat.SRGB →
            wOut0.pixels = wFrame0.pixels.map bgr2rgbPixel
              ∧ ∀ b g r : Nat, [b, g, r] ∈ wFrame0.pixels →
                  [r, g, b] ∈ wOut0.pixels)
        ∧ (wState.format = ImageFormat.SRGBA →
            wOut0.pixels = wFrame0.pixels.map bgra2rgbaPixel
              ∧ ∀ b g r a : Nat, [b, g, r, a] ∈ wFrame0.pixels →
                  [r, g, b, a] ∈ wOut0.pixels)) :=
  ⟨rfl, by decide,
    C8_color_conversion wVideo wState wFrame0 1 wOut0 0 rfl (by decide)⟩

/-- Claim C2: the format mapping is determined solely by the probe frame's
channel count (1 ↦ `GRAY8`, 3 ↦ `SRGB`, 4 ↦ `SRGBA`, anything else ↦
`UNKNOWN`), and on an unsupported channel count `Open` fails with the
unsupported-format error before emitting anything: the run produces no
header and no frames. -/
theorem C2_format_mapping (v : Video) (hp : Bool) (w h fc : Int) (q : ℚ)
    (fmt : ImageFormat) (n : Nat) (probe : RawFrame) (rest : List RawFrame)
    (hopen : v.openable = true) (hframes : v.frames = probe :: rest)
    (hch : probe.channels ≠ 1 ∧ probe.channels ≠ 3 ∧ probe.channels ≠ 4) :
    GetImageFormat 1 = ImageFormat.GRAY8
      ∧ GetImageFormat 3 = ImageFormat.SRGB
      ∧ GetImageFormat 4 = ImageFormat.SRGBA
      ∧ GetImageFormat probe.channels = ImageFormat.UNKNOWN
      ∧ calcOpen v hp (initState w h fc q fmt)
          = Except.error DecodeError.unsupportedFormat
      ∧ runTrace v hp n (initState w h fc q fmt)
          = Except.error DecodeError.unsupportedFormat := by
  have hunk : GetImageFormat probe.channels = ImageFormat.UNKNOWN := by
    simp [GetImageFormat, hch.1, hch.2.1, hch.2.2]
  have hopenEq : calcOpen v hp (initState w h fc q fmt)
      = Except.error DecodeError.unsupportedFormat := by
    simp [calcOpen, hopen, Video.readFrame, hframes, hunk]
  exact ⟨rfl, rfl, rfl, hunk, hopenEq, by simp [runTrace, hopenEq]⟩

/-- A probe frame with 2 channels (unsupported). -/
def c2Frame : RawFrame :=
  { channels := 2, pixels := [[0, 0], [0, 0]], posMsec := 0 }

/-- An openable sample source whose probe frame has 2 channels. -/
def c2Video : Video :=
  { openable := true
    metaWidth := 2
    metaHeight := 1
    metaFps := 25
    metaFrameCount := 2
    frames := [c2Frame] }

/-- Witness for C2 on the 2-channel sample source. -/
theorem C2_format_mapping_witness :
    c2Video.openable = true
      ∧ c2Video.frames = c2Frame :: []
      ∧ (c2Frame.channels ≠ 1 ∧ c2Frame.channels ≠ 3 ∧ c2Frame.channels ≠ 4)
      ∧ (GetImageFormat 1 = ImageFormat.GRAY8
          ∧ GetImageFormat 3 = ImageFormat.SRGB
          ∧ GetImageFormat 4 = ImageFormat.SRGBA
          ∧ GetImageFormat c2Frame.channels = ImageFormat.UNKNOWN
          ∧ calcOpen c2Video true (initState 0 0 0 0 ImageFormat.UNKNOWN)
              = Except.error DecodeError.unsupportedFormat
          ∧ runTrace c2Video true 2 (initState 0 0 0 0 ImageFormat.UNKNOWN)
              = Except.error DecodeError.unsupportedFormat) :=
  ⟨rfl, rfl, by decide,
    C2_format_mapping c2Video true 0 0 0 0 ImageFormat.UNKNOWN 2 c2Frame []
      rfl rfl (by decide)⟩

/-- Claim C3: when the pre-stream output is requested and `Open` succeeds,
exactly one header is emitted, at the pre-stream timestamp, chronologically
before every frame packet; its duration is `frame_count_ / fps` from the
probed metadata; and the pre-stream output is closed right after. -/
theorem C3_header_before_frames (v : Video) (w h fc : Int) (q : ℚ)
    (fmt : ImageFormat) (o : OpenOut) (n : Nat)
    (ho : calcOpen v true (initState w h fc q fmt) = Except.ok o) :
    ∃ hdr rest,
      o.prestream = [(hdr, MTimestamp.preStream)]
        ∧ hdr.duration = (v.metaFrameCount : ℚ) / v.metaFps
        ∧ o.prestreamClosed = true
        ∧ runTrace v true n (initState w h fc q fmt)
            = Except.ok (Event.header hdr MTimestamp.preStream :: rest)
        ∧ ∀ e ∈ rest, e.isFrame = true := by
  obtain ⟨probe, rest0, hop, hf, hfmt, hmeta, ho'⟩ :=
    calcOpen_ok_inv v true (initState w h fc q fmt) o ho
  have hpre : o.prestream = [(makeHeader v probe, MTimestamp.preStream)] := by
    simp [ho']
  have hclosed : o.prestreamClosed = true := by simp [ho']
  refine ⟨makeHeader v probe,
    (runSteps v n o.state).2.map (fun p => Event.frame p.1 p.2),
    hpre, rfl, hclosed, ?_, ?_⟩
  · simp [runTrace, ho, hpre]
  · intro e he
    simp only [List.mem_map] at he
    obtain ⟨p, _, rfl⟩ := he
    rfl

/-- Witness for C3 on the sample source. -/
theorem C3_header_before_frames_witness :
    calcOpen wVideo true (initState 0 0 0 0 ImageFormat.UNKNOWN)
        = Except.ok wOpen
      ∧ ∃ hdr rest,
          wOpen.prestream = [(hdr, MTimestamp.preStream)]
            ∧ hdr.duration = (wVideo.metaFrameCount : ℚ) / wVideo.metaFps
            ∧ wOpen.prestreamClosed = true
            ∧ runTrace wVideo true 3 (initState 0 0 0 0 ImageFormat.UNKNOWN)
                = Except.ok (Event.header hdr MTimestamp.preStream :: rest)
            ∧ ∀ e ∈ rest, e.isFrame = true :=
  ⟨rfl,
    C3_header_before_frames wVideo 0 0 0 0 ImageFormat.UNKNOWN wOpen 3 rfl⟩

/-- Claim C5 as amended: when the file opens, a probe frame exists and its
format is supported, invalid metadata (frame rate, frame count, width or
height ≤ 0) makes `Open` fail with the invalid-metadata error before the
header is built, so the run emits no header and no frames.  (When the
channel count is also unsupported, the format check fires first — see the
counterexample.) -/
theorem C5_metadata_validation (v : Video) (hp : Bool) (w h fc : Int) (q : ℚ)
    (fmt : ImageFormat) (n : Nat) (probe : RawFrame) (rest : List RawFrame)
    (hopen : v.openable = true) (hframes : v.frames = probe :: rest)
    (hfmt : GetImageFormat probe.channels ≠ ImageFormat.UNKNOWN)
    (hbad : v.metaFps ≤ 0 ∨ v.metaFrameCount ≤ 0 ∨ v.metaWidth ≤ 0
        ∨ v.metaHeight ≤ 0) :
    calcOpen v hp (initState w h fc q fmt)
        = Except.error DecodeError.invalidMetadata
      ∧ runTrace v hp n (initState w h fc q fmt)
          = Except.error DecodeError.invalidMetadata := by
  have hopenEq : calcOpen v hp (initState w h fc q fmt)
      = Except.error DecodeError.invalidMetadata := by
    simp [calcOpen, hopen, Video.readFrame, hframes, hfmt, hbad]
  exact ⟨hopenEq, by simp [runTrace, hopenEq]⟩

/-- A 1-channel (grayscale) probe frame. -/
def c5Frame : RawFrame :=
  { channels := 1, pixels := [[0], [0]], posMsec := 0 }

/-- An openable grayscale sample source whose container reports a frame
rate of 0. -/
def c5Video : Video :=
  { openable := true
    metaWidth := 2
    metaHeight := 1
    metaFps := 0
    metaFrameCount := 2
    frames := [c5Frame] }

/-- Witness for the amended C5 on a supported-format source with frame
rate 0. -/
theorem C5_metadata_validation_witness :
    c5Video.openable = true
      ∧ c5Video.frames = c5Frame :: []
      ∧ GetImageFormat c5Frame.channels ≠ ImageFormat.UNKNOWN
      ∧ (c5Video.metaFps ≤ 0 ∨ c5Video.metaFrameCount ≤ 0
          ∨ c5Video.metaWidth ≤ 0 ∨ c5Video.metaHeight ≤ 0)
      ∧ (calcOpen c5Video true (initState 0 0 0 0 ImageFormat.UNKNOWN)
            = Except.error DecodeError.invalidMetadata
          ∧ runTrace c5Video true 2 (initState 0 0 0 0 ImageFormat.UNKNOWN)
              = Except.error DecodeError.invalidMetadata) :=
  ⟨rfl, rfl, by decide, by decide,
    C5_metadata_validation c5Video true 0 0 0 0 ImageFormat.UNKNOWN 2
      c5Frame [] rfl rfl (by decide) (by decide)⟩

/-- An openable source with BOTH an unsupported channel count (2) and an
invalid frame rate (0). -/
def c5BadVideo : Video :=
  { openable := true
    metaWidth := 2
    metaHeight := 1
    metaFps := 0
    metaFrameCount := 2
    frames := [{ channels := 2, pixels := [[0, 0], [0, 0]], posMsec := 0 }] }

/-- Counterexample to claim C5 as stated: on `c5BadVideo` the probed frame
rate is ≤ 0, yet `Open` fails with the unsupported-format error, not the
invalid-metadata error, because the format check runs first. -/
theorem C5_counterexample :
    c5BadVideo.metaFps ≤ 0
      ∧ calcOpen c5BadVideo true (initState 0 0 0 0 ImageFormat.UNKNOWN)
          = Except.error DecodeError.unsupportedFormat
      ∧ DecodeError.unsupportedFormat ≠ DecodeError.invalidMetadata :=
  ⟨by decide, rfl, by decide⟩

/-- Claim C9: a successful `Open` leaves the capture rewound to position 0,
so the next read returns the source's first frame, and the first `Process`
step emits that first frame (converted) with its own timestamp — the probe
frame is not lost. -/
theorem C9_rewind (v : Video) (hp : Bool) (w h fc : Int) (q : ℚ)
    (fmt : ImageFormat) (o : OpenOut) (probe : RawFrame)
    (rest : List RawFrame)
    (ho : calcOpen v hp (initState w h fc q fmt) = Except.ok o)
    (hframes : v.frames = probe :: rest) :
    o.state.cursor = 0
      ∧ (v.readFrame o.state.cursor).1 = some probe
      ∧ (calcProcess v o.state).video =
          [({ format := o.state.format, width := o.state.width,
              height := o.state.height,
              pixels := convertPixels o.state.format probe.pixels },
            probe.posMsec * 1000)] := by
  obtain ⟨probe', rest', hop, hf, hfmt, hmeta, ho'⟩ :=
    calcOpen_ok_inv v hp (initState w h fc q fmt) o ho
  have hcur : o.state.cursor = 0 := by rw [ho']
  have hprev : o.state.prevTimestamp = none := by rw [ho']; rfl
  have hread0 : v.readFrame 0 = (some probe, 1) := by
    simp [Video.readFrame, hframes]
  have hread : v.readFrame o.state.cursor = (some probe, 1) := by
    rw [hcur]; exact hread0
  have hpos : v.posMsec o.state.cursor = probe.posMsec := by
    rw [hcur]; simp [Video.posMsec, hframes]
  have hgate : prevLt o.state.prevTimestamp
      (v.posMsec o.state.cursor * 1000) = true := by
    rw [hprev]; rfl
  refine ⟨hcur, by rw [hread], ?_⟩
  have hstep := calcProcess_read v o.state probe 1 hread
  rw [hstep, if_pos hgate]
  rw [hpos]

/-- Witness for C9 on the sample source. -/
theorem C9_rewind_witness :
    calcOpen wVideo true (initState 0 0 0 0 ImageFormat.UNKNOWN)
        = Except.ok wOpen
      ∧ wVideo.frames = wFrame0 :: [wFrame1]
      ∧ (wOpen.state.cursor = 0
          ∧ (wVideo.readFrame wOpen.state.cursor).1 = some wFrame0
          ∧ (calcProcess wVideo wOpen.state).video =
              [({ format := wOpen.state.format, width := wOpen.state.width,
                  height := wOpen.state.height,
                  pixels := convertPixels wOpen.state.format wFrame0.pixels },
                wFrame0.posMsec * 1000)]) :=
  ⟨rfl, rfl,
    C9_rewind wVideo true 0 0 0 0 ImageFormat.UNKNOWN wOpen wFrame0 [wFrame1]
      rfl rfl⟩

/-- A path that does not open. -/
def c7Video : Video :=
  { openable := false
    metaWidth := 0
    metaHeight := 0
    metaFps := 0
    metaFrameCount := 0
    frames := [] }

/-- Claim C7, evaluated at the failing input: `Close` itself always returns
`OkStatus` no matter the state, but after an `Open` that failed before
probing (the path does not open), `frame_count_` still holds whatever
indeterminate value the uninitialized member happened to contain (here 7),
so the frame-count-mismatch diagnostic FIRES instead of being suppressed —
the code compares `decoded_frames_ = 0` against an uninitialized member. -/
theorem C7_close_after_failed_open :
    (∀ st : CalcState, (calcClose st).status = CloseStatus.ok)
      ∧ calcOpen c7Video true (initState 640 480 7 30 ImageFormat.GRAY8)
          = Except.error DecodeError.openError
      ∧ (calcClose (initState 640 480 7 30 ImageFormat.GRAY8)).warned = true
      ∧ (calcClose (initState 640 480 0 30 ImageFormat.GRAY8)).warned
          = false :=
  ⟨fun _ => rfl, rfl, by decide, by decide⟩

end CvDecoder
